import Mathlib

/-!
Verification development for the call subsystem of `operation-one`,
a shallow embedding of `src/frontend/hooks/use-call.ts` (together with the
capture hook in `use-audio-recorder`).  State held in React refs/state is
modelled as explicit record fields; browser/event callbacks become state
transition functions; `await`-able steps that can reject become functions
parameterised by an environment record saying which external step succeeds
or fails (the JS `try`/`catch`/`finally` control flow is translated
literally: a failing step jumps to the `catch` branch).
-/

namespace UseCall

/-! ## Signaling message handling (socket.onmessage, lines 232-269)

The peer-connection-relevant part of a signaling message.  Payloads
(session descriptions, candidates) are abstracted to numeric identifiers;
`iceCandidate none` models a message whose `candidate` field is null/absent
(the code checks `if (message.candidate)`). -/

inductive SigMsg where
  | offer : Nat → SigMsg
  | answer : Nat → SigMsg
  | iceCandidate : Option Nat → SigMsg
  | callAnswered : SigMsg
deriving DecidableEq

/-- State of the `RTCPeerConnection` as seen by the message handler.
`remoteDescSet` records whether `setRemoteDescription` has run; `applied`
lists candidates successfully added by `addIceCandidate`; `dropped` lists
candidates for which `addIceCandidate` threw (the browser raises
`InvalidStateError` when no remote description is set) and whose error the
handler caught and merely logged (lines 249-253). -/
structure PCState where
  remoteDescSet : Bool
  applied : List Nat
  dropped : List Nat
deriving DecidableEq

def PCState.init : PCState := ⟨false, [], []⟩

/-- One step of `socket.onmessage` (lines 238-268), restricted to its
effect on the peer connection.  On `offer` the code sets the remote
description and then creates/sends an answer; on `answer` it sets the
remote description; on `ice_candidate` with a non-null candidate it calls
`addIceCandidate` inside try/catch — the call succeeds exactly when the
remote description is already set, otherwise the error is caught and
logged and the candidate is lost; `call_answered` does not touch the
peer connection. -/
def handleSignal (s : PCState) (m : SigMsg) : PCState :=
  match m with
  | .offer _ => { s with remoteDescSet := true }
  | .answer _ => { s with remoteDescSet := true }
  | .iceCandidate none => s
  | .iceCandidate (some c) =>
      if s.remoteDescSet then { s with applied := s.applied ++ [c] }
      else { s with dropped := s.dropped ++ [c] }
  | .callAnswered => s

/-- Run the handler over an ordered sequence of messages (wire order is
preserved by the channel). -/
def runSignals (s : PCState) : List SigMsg → PCState
  | [] => s
  | m :: ms => runSignals (handleSignal s m) ms

/-- Modelled from the spec: the buffering behaviour §4.3 describes
("Candidates received before the remote description is set must be
buffered and applied once it is set").  Kept separate from `handleSignal`,
which is translated from the source, so the two can be compared. -/
structure PCSpecState where
  remoteDescSet : Bool
  applied : List Nat
  pending : List Nat
deriving DecidableEq

def PCSpecState.init : PCSpecState := ⟨false, [], []⟩

def handleSignalSpec (s : PCSpecState) (m : SigMsg) : PCSpecState :=
  match m with
  | .offer _ =>
      { s with remoteDescSet := true, applied := s.applied ++ s.pending, pending := [] }
  | .answer _ =>
      { s with remoteDescSet := true, applied := s.applied ++ s.pending, pending := [] }
  | .iceCandidate none => s
  | .iceCandidate (some c) =>
      if s.remoteDescSet then { s with applied := s.applied ++ [c] }
      else { s with pending := s.pending ++ [c] }
  | .callAnswered => s

def runSignalsSpec (s : PCSpecState) : List SigMsg → PCSpecState
  | [] => s
  | m :: ms => runSignalsSpec (handleSignalSpec s m) ms

end UseCall

namespace UseCall

/-- C1, claim as stated, on the trace "candidate 1 arrives, then the
answer": the code drops the candidate — it is never applied, while the
buffering behaviour the spec demands would apply it after the answer. -/
theorem ice_candidate_before_answer_dropped :
    (runSignals PCState.init [SigMsg.iceCandidate (some 1), SigMsg.answer 0]).applied = []
    ∧ (runSignals PCState.init [SigMsg.iceCandidate (some 1), SigMsg.answer 0]).dropped = [1]
    ∧ (runSignalsSpec PCSpecState.init
        [SigMsg.iceCandidate (some 1), SigMsg.answer 0]).applied = [1] := by
  decide

/-- C1 amended: an ICE candidate message arriving before the remote
description is set is not buffered — the immediate `addIceCandidate` call
fails, the error is caught and logged, and the candidate is dropped; a
candidate arriving after the remote description is set is applied. -/
theorem ice_candidate_code_behavior (s : PCState) (c : Nat) :
    (s.remoteDescSet = false →
      handleSignal s (SigMsg.iceCandidate (some c)) = { s with dropped := s.dropped ++ [c] })
    ∧ (s.remoteDescSet = true →
      handleSignal s (SigMsg.iceCandidate (some c)) = { s with applied := s.applied ++ [c] }) := by
  constructor <;> intro h <;> simp [handleSignal, h]

theorem ice_candidate_code_behavior_witness :
    handleSignal PCState.init (SigMsg.iceCandidate (some 2)) =
      { PCState.init with dropped := [2] } :=
  (ice_candidate_code_behavior PCState.init 2).1 rfl

end UseCall

namespace UseCall

/-! ## The hook's state (use-call.ts lines 45-66, plus the capture hook)

React state and refs of `useCall`, together with bookkeeping that lets the
theorems observe resource usage: `pcOpenCount` counts RTCPeerConnections
constructed and not yet closed, `activeRecorders` counts MediaRecorders
started and not yet stopped (including ones leaked by overwriting
`callRecorderRef`), and `offersSent` records, per sent offer, the id of the
peer connection it was created on.  `micHeld` models the capture stream of
`useAudioRecorder` being live (`startRecording` / `stopRecording`). -/

inductive Status where
  | idle | initiating | connected | answered | ended
deriving DecidableEq

structure HookState where
  callId : Option Nat
  roomName : Option String
  status : Status
  errorMsg : Option String
  isLoading : Bool
  isRecording : Bool
  audioUrl : Option (List Nat)
  recordedChunks : List Nat
  ws : Bool
  pc : Option Nat
  nextPcId : Nat
  pcOpenCount : Nat
  audioCtx : Bool
  recorderActive : Bool
  activeRecorders : Nat
  micHeld : Bool
  offersSent : List Nat
deriving DecidableEq

def initState : HookState :=
  { callId := none, roomName := none, status := .idle, errorMsg := none,
    isLoading := false, isRecording := false, audioUrl := none,
    recordedChunks := [], ws := false, pc := none, nextPcId := 0,
    pcOpenCount := 0, audioCtx := false, recorderActive := false,
    activeRecorders := 0, micHeld := false, offersSent := [] }

/-- `createPeerConnection` (lines 100-126): if `peerConnectionRef.current`
is non-null it returns the existing connection; otherwise it constructs a
new `RTCPeerConnection`, stores it in the ref and returns it.  The second
component is the id of the returned connection. -/
def createPeerConnection (s : HookState) : HookState × Nat :=
  match s.pc with
  | some p => (s, p)
  | none =>
      ({ s with pc := some s.nextPcId, nextPcId := s.nextPcId + 1,
                pcOpenCount := s.pcOpenCount + 1 }, s.nextPcId)

/-- `setupAudioMixing` (lines 129-178): bails out when no local stream is
available; otherwise builds a fresh AudioContext and destination, connects
the local and remote sources, constructs a fresh MediaRecorder over the
mixed stream, resets `recordedChunksRef`, starts the recorder and marks
`isRecording`.  The previous recorder/context, if any, are overwritten in
the refs without being stopped or closed, so a previously running recorder
keeps running (hence `activeRecorders` only grows here). -/
def setupAudioMixing (s : HookState) : HookState :=
  if s.micHeld then
    { s with audioCtx := true, recorderActive := true,
             activeRecorders := s.activeRecorders + 1,
             recordedChunks := [], isRecording := true }
  else s

/-- `pc.ontrack` (lines 116-123): routes the remote stream to the audio
element (not modelled) and calls `setupAudioMixing`. -/
def onTrackHandler (s : HookState) : HookState := setupAudioMixing s

/-- Result of `getBackendToken` (lines 82-97): `.throws m` models the auth
request failing (`!response.ok` makes the function throw, with message
`m`), `.nullToken` models no session id-token (the function returns null
without throwing), `.token t` a successful exchange. -/
inductive TokenOutcome where
  | throws : String → TokenOutcome
  | nullToken : TokenOutcome
  | token : String → TokenOutcome
deriving DecidableEq

/-- Fault-injection switches for `endCall`/`cleanupCall`, following the
spec's fault-injection test ("make each step throw in turn").  The flags
say whether the corresponding call returns normally (`true`) or throws
(`false`). -/
structure EndEnv where
  tokenOutcome : TokenOutcome
  endReqOk : Bool
  wsCloseOk : Bool
  pcCloseOk : Bool
  ctxCloseOk : Bool
  recStopOk : Bool
deriving DecidableEq

def allOkEnd : EndEnv :=
  { tokenOutcome := .token "tok", endReqOk := true, wsCloseOk := true,
    pcCloseOk := true, ctxCloseOk := true, recStopOk := true }

/-- Observable teardown actions of `endCall`, in the order the code
performs them. -/
inductive Action where
  | backendEnd | closeChannel | setEnded | closePeer | closeAudio
  | stopRecorder | releaseCapture
deriving DecidableEq

/-- `stopMic` = `useAudioRecorder.stopRecording`: stops and drops the
capture stream; does not throw. -/
def cleanupFromMic (s : HookState) (acts : List Action) :
    HookState × List Action × Bool :=
  ({ s with micHeld := false }, acts ++ [Action.releaseCapture], false)

/-- `cleanupCall` line 294-296: `if (callRecorderRef.current &&
callRecorderRef.current.state !== 'inactive') callRecorderRef.current.stop()`
(stopping triggers `recorder.onstop`, modelled separately), then `stopMic()`.
A throwing `stop()` aborts the rest (third component `true`). -/
def cleanupFromRec (e : EndEnv) (s : HookState) (acts : List Action) :
    HookState × List Action × Bool :=
  if s.recorderActive then
    if e.recStopOk then
      cleanupFromMic
        { s with recorderActive := false,
                 activeRecorders := s.activeRecorders - 1 }
        (acts ++ [Action.stopRecorder])
    else (s, acts, true)
  else cleanupFromMic s acts

/-- `cleanupCall` lines 290-293: close the AudioContext and null the ref. -/
def cleanupFromCtx (e : EndEnv) (s : HookState) (acts : List Action) :
    HookState × List Action × Bool :=
  if s.audioCtx then
    if e.ctxCloseOk then
      cleanupFromRec e { s with audioCtx := false } (acts ++ [Action.closeAudio])
    else (s, acts, true)
  else cleanupFromRec e s acts

/-- `cleanupCall` (lines 285-298) with fault injection: close the peer
connection and null its ref, then the AudioContext, then stop the
recorder, then stop the mic.  The statements run in sequence with no
internal try/catch, so a throw at any step skips every later step (and,
for the peer connection, skips even the nulling of the ref, which follows
the `close()` call). -/
def cleanupCallF (e : EndEnv) (s : HookState) (acts : List Action) :
    HookState × List Action × Bool :=
  match s.pc with
  | some _ =>
      if e.pcCloseOk then
        cleanupFromCtx e
          { s with pc := none, pcOpenCount := s.pcOpenCount - 1 }
          (acts ++ [Action.closePeer])
      else (s, acts, true)
  | none => cleanupFromCtx e s acts

/-- `cleanupCall` as the source runs it outside fault injection (every
step returns normally). -/
def cleanupCall (s : HookState) : HookState := (cleanupCallF allOkEnd s []).1

end UseCall

namespace UseCall

/-- Continuation of `endCall` after the token/backend-end step succeeded
(lines 421-426 and the `catch`/`finally` of 427-431): close the channel if
one is registered, set the call state to `ended` (keeping `callId`,
clearing `roomName`), then run `cleanupCall`.  A throw anywhere lands in
the `catch`, which only sets the error message; `finally` clears
`isLoading`. -/
def endCallAfterReq (e : EndEnv) (s : HookState) (acts : List Action) :
    HookState × List Action :=
  if s.ws ∧ e.wsCloseOk = false then
    ({ s with errorMsg := some "ws close failed", isLoading := false }, acts)
  else
    let s1 := if s.ws then { s with ws := false } else s
    let acts1 := if s.ws then acts ++ [Action.closeChannel] else acts
    let s2 := { s1 with roomName := none, status := Status.ended }
    let acts2 := acts1 ++ [Action.setEnded]
    let r := cleanupCallF e s2 acts2
    if r.2.2 then
      ({ r.1 with errorMsg := some "cleanup failed", isLoading := false }, r.2.1)
    else
      ({ r.1 with isLoading := false }, r.2.1)

/-- `endCall` (lines 408-432), with fault injection and an action trace.
`if (!callState.callId) return;` — a null id (and, JS falsiness, id 0)
returns before anything happens.  Otherwise: set loading, clear the error,
then inside `try`: `getBackendToken()` (throw lands in `catch` and skips
everything else); if the token is non-null, `await fetch(.../end)` — a
rejected fetch likewise skips all teardown; then close the channel, set
state `ended`, `cleanupCall()`. -/
def endCallF (e : EndEnv) (s : HookState) : HookState × List Action :=
  match s.callId with
  | none => (s, [])
  | some cid =>
    if cid = 0 then (s, [])
    else
      let s1 := { s with isLoading := true, errorMsg := none }
      match e.tokenOutcome with
      | .throws m => ({ s1 with errorMsg := some m, isLoading := false }, [])
      | .nullToken => endCallAfterReq e s1 []
      | .token _ =>
          if e.endReqOk then endCallAfterReq e s1 [Action.backendEnd]
          else
            ({ s1 with errorMsg := some "Failed to fetch", isLoading := false },
             [Action.backendEnd])

/-- `socket.onopen` (lines 211-230) for a given call id and room name:
set the call state to `connected`, register the socket, create the peer
connection (guarded) and, when a local stream is available, attach its
tracks (track bookkeeping is not needed by any claim and not modelled). -/
def onOpenHandler (s : HookState) (cid : Nat) (room : Option String) :
    HookState :=
  let s1 := { s with callId := some cid, roomName := room,
                     status := Status.connected, ws := true }
  (createPeerConnection s1).1

/-- `socket.onclose` (lines 277-281): set status `ended`, clear the
socket ref, run `cleanupCall`. -/
def onCloseHandler (s : HookState) : HookState :=
  cleanupCall { s with status := Status.ended, ws := false }

/-! ## Event interleavings (claim C3)

The externally-triggered callbacks relevant to the resource invariant, as
one step function so traces of events can be replayed. -/

inductive CEvent where
  | openChannel : Nat → Option String → CEvent
  | remoteTrack : CEvent
  | channelClosed : CEvent
deriving DecidableEq

/-- Dispatch one event to its handler.  `remoteTrack` can only fire while
a peer connection exists (it is that connection's callback). -/
def stepEvent (s : HookState) : CEvent → HookState
  | .openChannel cid room => onOpenHandler s cid room
  | .remoteTrack => if s.pc = none then s else onTrackHandler s
  | .channelClosed => onCloseHandler s

def runEvents (s : HookState) : List CEvent → HookState
  | [] => s
  | e :: es => runEvents (stepEvent s e) es

end UseCall

namespace UseCall

/-- Environment for `uploadRecording`: outcome of `getBackendToken` and
whether the multipart POST to `/calls/{id}/recording` resolves. -/
structure UploadEnv where
  tokenOutcome : TokenOutcome
  uploadOk : Bool
deriving DecidableEq

/-- `uploadRecording` (lines 180-201).  Returns the new state and the
number of upload requests issued.  `if (!callState.callId) return;` (JS
falsiness: null or 0) issues nothing; a null token returns silently; a
token failure or a rejected upload fetch is caught and only logged with
`console.error` — no state is touched in either case, and there is no
retry.  A successful upload only logs as well. -/
def uploadRecording (e : UploadEnv) (s : HookState) : HookState × Nat :=
  match s.callId with
  | none => (s, 0)
  | some cid =>
      if cid = 0 then (s, 0)
      else
        match e.tokenOutcome with
        | .throws _ => (s, 0)
        | .nullToken => (s, 0)
        | .token _ => (s, 1)

/-- `recorder.onstop` (lines 162-170): concatenate the recorded chunks
into one Blob (the single artifact), publish its object URL in `audioUrl`,
clear `isRecording`, then call `uploadRecording` on that artifact. -/
def recorderOnStop (e : UploadEnv) (s : HookState) : HookState × Nat :=
  let s1 := { s with audioUrl := some s.recordedChunks, isRecording := false }
  uploadRecording e s1

/-- Environment for `initiateCall`: outcome of each awaited step.
`micOutcome` is `startMic` (`useAudioRecorder.startRecording`, which
either returns the stream or rethrows `getUserMedia`'s error);
`initiateOk` is the `POST /calls/initiate` response being ok; the server
reply carries the call id and room name; `wsConnectOk` says whether the
new socket reaches `onopen` (resolving the promise) rather than `onerror`
(rejecting it). -/
inductive MicOutcome where
  | throws : String → MicOutcome
  | stream : MicOutcome
deriving DecidableEq

structure InitEnv where
  micOutcome : MicOutcome
  tokenOutcome : TokenOutcome
  initiateOk : Bool
  serverCallId : Nat
  serverRoom : Option String
  wsConnectOk : Bool
deriving DecidableEq

def allOkInit : InitEnv :=
  { micOutcome := .stream, tokenOutcome := .token "tok",
    initiateOk := true, serverCallId := 7, serverRoom := some "room",
    wsConnectOk := true }

/-- The `catch` branch of `initiateCall`/`acceptIncomingCall` followed by
`finally`: record the error message, run `cleanupCall`, clear loading. -/
def initCatch (s : HookState) (m : String) : HookState :=
  { cleanupCall { s with errorMsg := some m } with isLoading := false }

/-- `initiateCall` (lines 300-359), with the awaited steps' outcomes drawn
from `e`.  Control flow, translated from the source: set loading / clear
error; `try`: `startMic()` (on success the capture stream is live), then
`getBackendToken()` (null token throws "Not authenticated"), then `POST
/calls/initiate` (`!response.ok` throws), then `connectToWebSocket` — which
closes any existing socket (its close *event* is delivered later, as a
separate `channelClosed` event, so no cleanup runs here) and on the new
socket's `onopen` runs `onOpenHandler`; back in `initiateCall`, if the
peer-connection ref is non-null, attach the tracks of the captured stream,
create an offer, set it locally and send it.  Any throw lands in `catch`
(`setError` + `cleanupCall`), and `finally` clears loading. -/
def initiateCall (e : InitEnv) (s : HookState) : HookState :=
  let s0 := { s with isLoading := true, errorMsg := none }
  match e.micOutcome with
  | .throws m => initCatch s0 m
  | .stream =>
      let s1 := { s0 with micHeld := true }
      match e.tokenOutcome with
      | .throws m => initCatch s1 m
      | .nullToken => initCatch s1 "Not authenticated"
      | .token _ =>
          if e.initiateOk = false then initCatch s1 "Failed to initiate call"
          else if e.wsConnectOk = false then
            initCatch { s1 with errorMsg := some "WebSocket connection failed" }
              "Unknown error"
          else
            let s2 := onOpenHandler s1 e.serverCallId e.serverRoom
            match s2.pc with
            | some p =>
                { s2 with offersSent := s2.offersSent ++ [p], isLoading := false }
            | none => { s2 with isLoading := false }

end UseCall

namespace UseCall

/-- A fully active call: socket open, peer connection 0 live, mixer and
recorder running, capture held, two chunks recorded. -/
def activeState : HookState :=
  { initState with
    callId := some 1, roomName := some "r", status := .answered,
    ws := true, pc := some 0, nextPcId := 1, pcOpenCount := 1,
    audioCtx := true, recorderActive := true, activeRecorders := 1,
    micHeld := true, recordedChunks := [3, 4] }

/-- Modelled from the spec: the teardown order §4.5 prescribes for
`endCall` — "stop recorder → close peer session → close audio graph →
release capture device → close channel → `ended`" (after the backend
"end" request). -/
def specTeardownOrder : List Action :=
  [Action.backendEnd, Action.stopRecorder, Action.closePeer,
   Action.closeAudio, Action.releaseCapture, Action.closeChannel,
   Action.setEnded]

/-- C2, claim as stated, is false: when the backend "end" request fails
(its `await fetch` rejects), `endCall` on a fully active call jumps to the
`catch` — the call does not reach `ended`, the capture device stays held,
and no teardown action beyond the attempted backend request runs. -/
theorem end_backend_failure_blocks_teardown :
    (endCallF { allOkEnd with endReqOk := false } activeState).1.status ≠ Status.ended
    ∧ (endCallF { allOkEnd with endReqOk := false } activeState).1.micHeld = true
    ∧ (endCallF { allOkEnd with endReqOk := false } activeState).2 = [Action.backendEnd] := by
  decide

/-- C2 amended: `endCall` on an active call reaches `ended` and releases
the capture device (and closes the peer connection, audio graph and
recorder) when no teardown step throws; a throw in any step — including
the backend "end" request — is caught and surfaced as an error but aborts
the remaining steps. -/
theorem endCall_fault_free_teardown (s : HookState) (cid : Nat)
    (h1 : s.callId = some cid) (h2 : cid ≠ 0) :
    (endCallF allOkEnd s).1.status = Status.ended
    ∧ (endCallF allOkEnd s).1.micHeld = false
    ∧ (endCallF allOkEnd s).1.pc = none
    ∧ (endCallF allOkEnd s).1.audioCtx = false
    ∧ (endCallF allOkEnd s).1.recorderActive = false := by
  cases hw : s.ws <;> cases hp : s.pc <;> cases ha : s.audioCtx <;>
    cases hr : s.recorderActive <;>
      simp [endCallF, endCallAfterReq, cleanupCallF, cleanupFromCtx, cleanupFromRec,
            cleanupFromMic, allOkEnd, h1, h2, hw, hp, ha, hr]

theorem endCall_fault_free_teardown_witness :
    (endCallF allOkEnd activeState).1.status = Status.ended
    ∧ (endCallF allOkEnd activeState).1.micHeld = false
    ∧ (endCallF allOkEnd activeState).1.pc = none
    ∧ (endCallF allOkEnd activeState).1.audioCtx = false
    ∧ (endCallF allOkEnd activeState).1.recorderActive = false :=
  endCall_fault_free_teardown activeState 1 rfl (by decide)

end UseCall

namespace UseCall

/-- C3, claim as stated, is false for the mixer/recorder half: starting
with a live local stream, opening the channel (which creates the single,
guarded peer connection) and then receiving two remote-track events leaves
two MediaRecorders running at once — `setupAudioMixing` has no
once-per-call guard and overwrites the recorder ref without stopping the
previous recorder. -/
theorem two_track_events_two_recorders :
    ¬ ((runEvents { initState with micHeld := true }
        [CEvent.openChannel 1 none, CEvent.remoteTrack, CEvent.remoteTrack]).activeRecorders ≤ 1)
    ∧ (runEvents { initState with micHeld := true }
        [CEvent.openChannel 1 none, CEvent.remoteTrack, CEvent.remoteTrack]).activeRecorders = 2
    ∧ (runEvents { initState with micHeld := true }
        [CEvent.openChannel 1 none, CEvent.remoteTrack, CEvent.remoteTrack]).pcOpenCount = 1 := by
  decide

/-- C3 amended: at most one peer connection per Call holds — opening the
channel while a peer connection exists keeps that very connection and
constructs no new one; but the mixer/recorder is guarded per remote-track
event, not per Call: every remote-track event arriving while the local
stream is live starts one more recorder (overwriting, not stopping, the
previous one), so a single active mixed recording is only guaranteed when
at most one remote-track event occurs. -/
theorem peer_guarded_mixer_unguarded (s : HookState) (p cid : Nat) (room : Option String)
    (hp : s.pc = some p) :
    (stepEvent s (CEvent.openChannel cid room)).pc = some p
    ∧ (stepEvent s (CEvent.openChannel cid room)).pcOpenCount = s.pcOpenCount
    ∧ (s.micHeld = true →
        (stepEvent s CEvent.remoteTrack).activeRecorders = s.activeRecorders + 1) := by
  refine ⟨?_, ?_, ?_⟩ <;>
    simp [stepEvent, onOpenHandler, createPeerConnection, onTrackHandler,
          setupAudioMixing, hp]
  intro hm
  simp [hm]

theorem peer_guarded_mixer_unguarded_witness :
    (stepEvent activeState (CEvent.openChannel 1 (some "r"))).pc = some 0
    ∧ (stepEvent activeState (CEvent.openChannel 1 (some "r"))).pcOpenCount
        = activeState.pcOpenCount
    ∧ (stepEvent activeState CEvent.remoteTrack).activeRecorders
        = activeState.activeRecorders + 1 :=
  ⟨(peer_guarded_mixer_unguarded activeState 0 1 (some "r") rfl).1,
   (peer_guarded_mixer_unguarded activeState 0 1 (some "r") rfl).2.1,
   (peer_guarded_mixer_unguarded activeState 0 1 (some "r") rfl).2.2 rfl⟩

/-- C4, claim as stated, is false: the order `endCall` actually performs
is backend end → close channel → set `ended` → close peer → close audio
graph → stop recorder → release capture, which differs from the order the
spec prescribes; and when the backend "end" request fails, no teardown
action runs at all (teardown does not proceed on its failure). -/
theorem teardown_order_differs :
    (endCallF allOkEnd activeState).2 =
      [Action.backendEnd, Action.closeChannel, Action.setEnded, Action.closePeer,
       Action.closeAudio, Action.stopRecorder, Action.releaseCapture]
    ∧ (endCallF allOkEnd activeState).2 ≠ specTeardownOrder
    ∧ (endCallF { allOkEnd with endReqOk := false } activeState).2 = [Action.backendEnd] := by
  decide

/-- C4 amended: on a fully active call whose steps all succeed, `endCall`
performs, in this order: the backend "end" request, then close the
signaling channel, then set the state to `ended`, then close the peer
connection, then close the audio graph, then stop the recorder, then
release the capture device; a failing backend "end" request (or any
throwing step) aborts all later steps. -/
theorem endCall_actual_order (s : HookState) (cid p : Nat)
    (h1 : s.callId = some cid) (h2 : cid ≠ 0) (hw : s.ws = true)
    (hp : s.pc = some p) (ha : s.audioCtx = true) (hr : s.recorderActive = true) :
    (endCallF allOkEnd s).2 =
      [Action.backendEnd, Action.closeChannel, Action.setEnded, Action.closePeer,
       Action.closeAudio, Action.stopRecorder, Action.releaseCapture] := by
  simp [endCallF, endCallAfterReq, cleanupCallF, cleanupFromCtx, cleanupFromRec,
        cleanupFromMic, allOkEnd, h1, h2, hw, hp, ha, hr]

theorem endCall_actual_order_witness :
    (endCallF allOkEnd activeState).2 =
      [Action.backendEnd, Action.closeChannel, Action.setEnded, Action.closePeer,
       Action.closeAudio, Action.stopRecorder, Action.releaseCapture] :=
  endCall_actual_order activeState 1 0 rfl (by decide) rfl rfl rfl rfl

/-- C5: whatever state the call is in when the signaling channel's close
event fires, the `onclose` handler forces the status to `ended` and runs
the full teardown — the peer connection is closed, the audio graph closed,
the recorder stopped and the capture device released; closure is never
swallowed. -/
theorem channel_close_forces_teardown (s : HookState) :
    (onCloseHandler s).status = Status.ended
    ∧ (onCloseHandler s).ws = false
    ∧ (onCloseHandler s).pc = none
    ∧ (onCloseHandler s).audioCtx = false
    ∧ (onCloseHandler s).recorderActive = false
    ∧ (onCloseHandler s).micHeld = false := by
  cases hp : s.pc <;> cases ha : s.audioCtx <;> cases hr : s.recorderActive <;>
    simp [onCloseHandler, cleanupCall, cleanupCallF, cleanupFromCtx, cleanupFromRec,
          cleanupFromMic, allOkEnd, hp, ha, hr]

end UseCall

namespace UseCall

/-- C6: when capture acquisition throws (permission denied), starting from
an idle state with no channel and no peer connection, `initiateCall`
catches the error and surfaces its message, the call stays `idle`, the
capture device is not held, and no channel and no peer connection exist
afterwards. -/
theorem permission_denied_leaves_idle (e : InitEnv) (s : HookState) (m : String)
    (hm : e.micOutcome = .throws m) (hs : s.status = .idle)
    (hw : s.ws = false) (hp : s.pc = none) :
    (initiateCall e s).status = .idle
    ∧ (initiateCall e s).errorMsg = some m
    ∧ (initiateCall e s).ws = false
    ∧ (initiateCall e s).pc = none
    ∧ (initiateCall e s).micHeld = false := by
  cases ha : s.audioCtx <;> cases hr : s.recorderActive <;>
    simp [initiateCall, initCatch, cleanupCall, cleanupCallF, cleanupFromCtx,
          cleanupFromRec, cleanupFromMic, allOkEnd, hm, hs, hw, hp, ha, hr]

theorem permission_denied_leaves_idle_witness :
    (initiateCall { allOkInit with micOutcome := .throws "Permission denied" } initState).status = .idle
    ∧ (initiateCall { allOkInit with micOutcome := .throws "Permission denied" } initState).errorMsg
        = some "Permission denied"
    ∧ (initiateCall { allOkInit with micOutcome := .throws "Permission denied" } initState).ws = false
    ∧ (initiateCall { allOkInit with micOutcome := .throws "Permission denied" } initState).pc = none
    ∧ (initiateCall { allOkInit with micOutcome := .throws "Permission denied" } initState).micHeld
        = false :=
  permission_denied_leaves_idle { allOkInit with micOutcome := .throws "Permission denied" }
    initState "Permission denied" rfl rfl rfl rfl

/-- C7, claim as stated, is false in its "failure is surfaced" part: on a
fully active call whose upload request fails, `recorder.onstop` builds the
single artifact and retains it (`audioUrl`), issues exactly one upload
attempt, and leaves the user-visible error state untouched (`errorMsg`
stays `none`) — the failure is only logged to the console. -/
theorem upload_failure_not_surfaced :
    (recorderOnStop { tokenOutcome := .token "tok", uploadOk := false } activeState).1.errorMsg
      = none
    ∧ (recorderOnStop { tokenOutcome := .token "tok", uploadOk := false } activeState).1.audioUrl
      = some [3, 4]
    ∧ (recorderOnStop { tokenOutcome := .token "tok", uploadOk := false } activeState).2 = 1 := by
  decide

/-- C7 amended: when the recorder stops during a call with a known id and
an obtainable token, the chunks are concatenated into exactly one
artifact, published in `audioUrl`, and exactly one upload request is
issued, with no automatic retry; whether the upload succeeds or fails, the
rest of the state — in particular the user-visible error — is unchanged,
so a failure is only logged, not surfaced, and the artifact is retained. -/
theorem recorder_onstop_behavior (e : UploadEnv) (s : HookState) (cid : Nat) (t : String)
    (h1 : s.callId = some cid) (h2 : cid ≠ 0) (ht : e.tokenOutcome = .token t) :
    recorderOnStop e s =
      ({ s with audioUrl := some s.recordedChunks, isRecording := false }, 1) := by
  simp [recorderOnStop, uploadRecording, h1, h2, ht]

theorem recorder_onstop_behavior_witness :
    recorderOnStop { tokenOutcome := .token "tok", uploadOk := true } activeState =
      ({ activeState with audioUrl := some activeState.recordedChunks, isRecording := false }, 1) :=
  recorder_onstop_behavior { tokenOutcome := .token "tok", uploadOk := true }
    activeState 1 "tok" rfl (by decide) rfl

/-- C8, claim as stated, is false: running `initiateCall` twice in
succession (a retry while the first socket's close event has not yet been
delivered) creates and sends two offers on the same peer connection 0 —
offer creation has no per-session guard. -/
theorem retried_initiate_two_offers :
    (initiateCall allOkInit initState).pc = some 0
    ∧ (initiateCall allOkInit initState).offersSent = [0]
    ∧ (initiateCall allOkInit (initiateCall allOkInit initState)).pc = some 0
    ∧ (initiateCall allOkInit (initiateCall allOkInit initState)).offersSent = [0, 0] := by
  decide

/-- C8 amended: a single successful `initiateCall` invocation creates
exactly one offer, on the freshly created peer connection; but creation is
not guarded per session, so a retried invocation that still sees the
prior peer connection sends a second offer for that same session. -/
theorem single_initiate_one_offer (e : InitEnv) (s : HookState) (t : String)
    (hm : e.micOutcome = .stream) (ht : e.tokenOutcome = .token t)
    (hi : e.initiateOk = true) (hc : e.wsConnectOk = true) (hp : s.pc = none) :
    (initiateCall e s).offersSent = s.offersSent ++ [s.nextPcId]
    ∧ (initiateCall e s).pc = some s.nextPcId := by
  simp [initiateCall, onOpenHandler, createPeerConnection, hm, ht, hi, hc, hp]

theorem single_initiate_one_offer_witness :
    (initiateCall allOkInit initState).offersSent = initState.offersSent ++ [initState.nextPcId]
    ∧ (initiateCall allOkInit initState).pc = some initState.nextPcId :=
  single_initiate_one_offer allOkInit initState "tok" rfl rfl rfl rfl rfl

/-- C9: `createPeerConnection` is idempotent — whenever a peer connection
already exists, the call returns exactly that connection and leaves the
state unchanged, constructing nothing. -/
theorem createPeerConnection_idempotent (s : HookState) (p : Nat) (hp : s.pc = some p) :
    createPeerConnection s = (s, p) := by
  simp [createPeerConnection, hp]

theorem createPeerConnection_idempotent_witness :
    createPeerConnection activeState = (activeState, 0) :=
  createPeerConnection_idempotent activeState 0 rfl

/-- C10: `endCall` with no active call id returns before doing anything —
whatever the environment, the state is returned unchanged and no action
(backend request, close, state change) is performed. -/
theorem endCall_no_active_call_noop (e : EndEnv) (s : HookState) (h : s.callId = none) :
    endCallF e s = (s, []) := by
  simp [endCallF, h]

theorem endCall_no_active_call_noop_witness :
    endCallF allOkEnd initState = (initState, []) :=
  endCall_no_active_call_noop allOkEnd initState rfl

end UseCall
